import Mathlib

/-!
Verification of the gateway AI-request orchestration layer of the
local_ai repository, as a shallow embedding in Lean 4.

Sources embedded (file and function names follow the repository):
  * src/gateway/ai_providers.py : ask_ai, ask_gemini, stream_gemini,
    stream_ollama, and the prompt/language assembly of ask_ollama;
  * src/gateway/server.py : load_company_context, the context cache,
    ask_ollama prompt assembly, upload_file, delete_file;
  * src/gateway/documents.py : load_company_context, extract-and-skip
    filtering, save_uploaded_file;
  * src/gateway/server_enhanced.py : process_with_memory, query_ai_server;
  * src/gateway/database.py : MemoryStore (create_conversation,
    get_conversation_history, add_message).

Network calls, the filesystem, and wall-clock time are modelled as
explicit parameters (oracle results, file lists, Nat timestamps);
everything else is translated statement by statement from the Python
source.
-/

namespace LocalAI

/-! ## ask_ai (src/gateway/ai_providers.py, lines 418-456)

The two provider adapters perform network calls; they are modelled by an
environment mapping a provider name and the argument record of the call
to the (success, text) pair the Python adapter returns.  `ask_ai` is
additionally instrumented with the list of adapter calls it makes, in
order, so that claims about which provider was invoked and with which
arguments are statable. -/

/-- The argument record of one adapter call: ask_ollama(prompt, context,
system_prompt, language) and ask_gemini(prompt, context, system_prompt,
language, model).  ask_ollama takes no model argument, modelled as
`model := none`. -/
structure PromptArgs where
  prompt : String
  context : String
  system_prompt : String
  language : String
  model : Option String
deriving DecidableEq, Repr

/-- Outcome environment for the two blocking adapters: given the provider
name and the call arguments, the (success, response_or_error) pair that
the adapter call returns. -/
def AskEnv : Type := String → PromptArgs → Bool × String

/-- Line 434: the primary adapter is gemini when provider == "gemini",
otherwise ollama (any other provider string falls through to ollama). -/
def primary_provider_name (provider : String) : String :=
  if provider = "gemini" then "gemini" else "ollama"

/-- Line 445: fallback_provider = "gemini" if provider == "ollama" else
"ollama". -/
def fallback_name (provider : String) : String :=
  if provider = "ollama" then "gemini" else "ollama"

/-- The arguments of the primary adapter call: ask_gemini receives the
model override (line 435), ask_ollama does not (line 439). -/
def primary_args (prompt context system_prompt language : String)
    (provider : String) (model : Option String) : PromptArgs :=
  { prompt, context, system_prompt, language,
    model := if provider = "gemini" then model else none }

/-- The arguments of the fallback adapter call (lines 449 and 451): the
same prompt, context, system_prompt and language; no model override is
carried across providers. -/
def fallback_args (prompt context system_prompt language : String) : PromptArgs :=
  { prompt, context, system_prompt, language, model := none }

/-- ask_ai (lines 418-456).  Returns ((response, provider_used), trace of
adapter calls).  On primary success the primary text and name are
returned; on failure, if fallback is enabled the other provider is
called with the same prompt arguments and, on success, its text suffixed
with the fallback annotation is returned with the fallback provider
name; otherwise the primary error is returned prefixed with "Error: "
together with the requested provider name. -/
def ask_ai (env : AskEnv) (prompt context system_prompt language : String)
    (provider : String) (model : Option String) (fallback : Bool) :
    (String × String) × List (String × PromptArgs) :=
  let pname := primary_provider_name provider
  let pargs := primary_args prompt context system_prompt language provider model
  let pr := env pname pargs
  if pr.1 then
    ((pr.2, pname), [(pname, pargs)])
  else if fallback then
    let fname := fallback_name provider
    let fargs := fallback_args prompt context system_prompt language
    let fr := env fname fargs
    if fr.1 then
      ((fr.2 ++ "\n\n*(Using " ++ fname ++ " as fallback)*", fname),
       [(pname, pargs), (fname, fargs)])
    else
      (("Error: " ++ pr.2, provider), [(pname, pargs), (fname, fargs)])
  else
    (("Error: " ++ pr.2, provider), [(pname, pargs)])

end LocalAI

namespace LocalAI

/-! ## Python string slicing

Python `s[:n]` takes the first n characters; modelled on the character
list underlying the Lean string. -/

/-- First n characters of a string (Python slice `s[:n]`). -/
def pyTake (s : String) (n : Nat) : String := ⟨s.data.take n⟩

/-- Python s.startswith(pre), on the character lists of the strings. -/
def pyStartsWith (s pre : String) : Bool := pre.data.isPrefixOf s.data

/-! ## Language instruction mapping

src/gateway/ai_providers.py, lines 47-52 (ask_ollama; the same table is
used by stream_ollama at lines 114-119): a two-entry dict with keys "no"
and "en", read with dict.get(language, table["en"]), so any unknown code
yields the "en" entry.  src/gateway/server.py, lines 294-299 (ask_ollama
there): an if/elif chain whose else branch leaves the instruction
empty. -/

/-- language_instructions.get(language, language_instructions["en"]) for
the ask_ollama / stream_ollama table of ai_providers.py. -/
def ollama_lang_instruction (language : String) : String :=
  if language = "no" then
    "Svar alltid på norsk. Du er en hyggelig og profesjonell assistent."
  else if language = "en" then
    "Always respond in English. You are a friendly and professional assistant."
  else
    "Always respond in English. You are a friendly and professional assistant."

/-- language_instructions.get(language, language_instructions["en"]) for
the ask_gemini / stream_gemini table of ai_providers.py (lines 239-244). -/
def gemini_lang_instruction (language : String) : String :=
  if language = "no" then "Svar alltid på norsk."
  else if language = "en" then "Always respond in English."
  else "Always respond in English."

/-- full_system of ask_ollama / stream_ollama (ai_providers.py lines
54-56): system prompt, blank line, language instruction, and the company
context block only when context is non-empty. -/
def ollama_full_system (system_prompt context language : String) : String :=
  let fs := system_prompt ++ "\n\n" ++ ollama_lang_instruction language
  if context ≠ "" then
    fs ++ "\n\nHere is relevant company context:\n" ++ context
  else fs

/-- lang_instruction of server.py ask_ollama (lines 294-299): "no" and
"en" each get a fixed instruction, every other code gets the empty
string. -/
def server_lang_instruction (language : String) : String :=
  if language = "no" then
    "\n\nIMPORTANT: Always respond in Norwegian (Norsk). The user prefers Norwegian language."
  else if language = "en" then
    "\n\nRespond in English."
  else ""

/-- system_prompt of server.py ask_ollama (lines 301-306): base prompt,
language instruction, context block, closing instruction. -/
def server_system_prompt (base_prompt context language : String) : String :=
  base_prompt ++ server_lang_instruction language ++
  "\n\nUse this information to answer questions:\n" ++ context ++
  "\n\nBe helpful, friendly, and concise. If asked about files or documents, refer to the information provided above."

/-! ## Response truncation (src/gateway/server_enhanced.py, lines 212-257)

query_ai_server obtains the provider response (or an error message from
the except branch) and truncates a successful response to
max_response_length characters, appending "..." when it truncates.  The
provider call is modelled by its outcome. -/

/-- Lines 252-254: if len(ai_response) > max_length, replace it with
ai_response[:max_length] + "...". -/
def truncate_response (maxLen : Nat) (resp : String) : String :=
  if resp.length > maxLen then pyTake resp maxLen ++ "..." else resp

/-- query_ai_server, with the AI call modelled by its outcome: a
successful response text is truncated; an exception produces the
apologetic error text and bypasses truncation. -/
def query_ai_server (maxLen : Nat) (outcome : Except String String) : String :=
  match outcome with
  | .ok t => truncate_response maxLen t
  | .error e => "I\x27m sorry, I couldn\x27t process your request. Error: " ++ e

/-! ## Streaming adapters (src/gateway/ai_providers.py)

A streaming generator is modelled as the finite list of chunks it
yields.  The backend behind it is modelled as a list of events: each
event is either a delivered chunk or the point at which the underlying
transport raises (or, for gemini, returns a non-200 status).  The
runner translates backend events into yielded chunks exactly as the
generator body does: chunks are forwarded (stream_ollama forwards only
truthy message contents, lines 141-142), and the first failure yields
one final bracketed error chunk and returns (lines 143-146 for ollama,
391-394 and 410-412 for gemini). -/

/-- Backend events seen by stream_ollama. -/
inductive OllamaStreamEvent
  | chunk (text : String)
  | exn (msg : String)
deriving DecidableEq, Repr

/-- The chunk sequence stream_ollama yields (lines 133-146): each chunk
with non-empty content is forwarded; an exception yields the final
"[Error: ...]" chunk and ends the generator. -/
def run_ollama_stream : List OllamaStreamEvent → List String
  | [] => []
  | OllamaStreamEvent.chunk s :: rest =>
      if s ≠ "" then s :: run_ollama_stream rest else run_ollama_stream rest
  | OllamaStreamEvent.exn e :: _ => ["\n\n[Error: " ++ e ++ "]"]

/-- Backend events seen by stream_gemini: an SSE text part, a non-200
HTTP status with its body, or a raised exception. -/
inductive GeminiStreamEvent
  | chunk (text : String)
  | httpError (status : Nat) (body : String)
  | exn (msg : String)
deriving DecidableEq, Repr

/-- The chunk sequence the body of stream_gemini yields (lines 386-412):
text parts are forwarded; a non-200 status yields one
"[Error: status - body[:100]]" chunk and returns; an exception yields
one "[Error: ...]" chunk and returns. -/
def run_gemini_stream : List GeminiStreamEvent → List String
  | [] => []
  | GeminiStreamEvent.chunk s :: rest => s :: run_gemini_stream rest
  | GeminiStreamEvent.httpError st body :: _ =>
      ["[Error: " ++ toString st ++ " - " ++ pyTake body 100 ++ "]"]
  | GeminiStreamEvent.exn e :: _ => ["\n\n[Error: " ++ e ++ "]"]

/-- The placeholder credential value checked by ask_gemini and
stream_gemini. -/
def GEMINI_PLACEHOLDER : String := "YOUR_GEMINI_API_KEY_HERE"

/-- Lines 236 and 339: `not GEMINI_API_KEY or GEMINI_API_KEY ==
"YOUR_GEMINI_API_KEY_HERE"`. -/
def gemini_key_missing (key : String) : Bool :=
  key = "" || key = GEMINI_PLACEHOLDER

/-- stream_gemini (lines 328-412): a missing or placeholder credential
yields a single error chunk before the request is built; otherwise the
backend events are translated by `run_gemini_stream`. -/
def stream_gemini (apiKey : String) (events : List GeminiStreamEvent) : List String :=
  if gemini_key_missing apiKey then ["[Error: Gemini API key not configured]"]
  else run_gemini_stream events

/-! ## ask_gemini (src/gateway/ai_providers.py, lines 225-325)

The HTTP call is modelled by its outcome.  The returned pair carries,
besides the (success, text) result, a flag recording whether the
network call was reached. -/

/-- Outcome of the Gemini generateContent HTTP call. -/
inductive GeminiNetResult
  | ok (text : String)
  | badShape
  | httpError (status : Nat) (body : String)
  | timeout
  | exn (msg : String)
deriving DecidableEq, Repr

/-- Python `a or b` for an optional string: None and "" are falsy. -/
def pyOrStr (a : Option String) (b : String) : String :=
  match a with
  | some s => if s = "" then b else s
  | none => b

/-- Lines 247-251: use_model = model or GEMINI_MODEL or
"gemini-2.0-flash", replaced by "gemini-2.0-flash" unless it starts with
"gemini". -/
def gemini_use_model (model : Option String) (cfgModel : String) : String :=
  let m := pyOrStr model (if cfgModel ≠ "" then cfgModel else "gemini-2.0-flash")
  if pyStartsWith m "gemini" then m else "gemini-2.0-flash"

/-- Python `pat in s` substring test: some suffix of s starts with
pat. -/
def containsSub (s pat : String) : Bool :=
  (List.range (s.data.length + 1)).any (fun i => pat.data.isPrefixOf (s.data.drop i))

/-- ask_gemini (lines 225-325).  The second component records whether
the HTTP request was made: a missing/placeholder key returns the
configuration error before any network activity. -/
def ask_gemini (apiKey : String) (model : Option String) (cfgModel : String)
    (net : GeminiNetResult) : (Bool × String) × Bool :=
  if gemini_key_missing apiKey then
    ((false, "Gemini API key not configured. Set GEMINI_API_KEY in your .env file."),
     false)
  else
    let useModel := gemini_use_model model cfgModel
    let res : Bool × String :=
      match net with
      | GeminiNetResult.ok t => (true, t)
      | GeminiNetResult.badShape => (false, "Invalid response format from Gemini")
      | GeminiNetResult.httpError st body =>
          if st == 400 && containsSub body "API_KEY" then
            (false, "Invalid Gemini API key. Check your GEMINI_API_KEY.")
          else if st == 404 then
            (false, "Gemini model \x27" ++ useModel ++ "\x27 not found. Try gemini-2.0-flash.")
          else (false, "Gemini API error: " ++ toString st)
      | GeminiNetResult.timeout => (false, "Gemini request timed out")
      | GeminiNetResult.exn m => (false, m)
    (res, true)

/-! ## Server context cache (src/gateway/server.py)

The filesystem is modelled as the data the regeneration walk reads: the
lines contributed by config.json, and for each file under
company_info / uploads its name, lowercased extension and the text that
extract_text_from_file returns for it.  Wall-clock time is a Nat
parameter.  load_company_context returns, besides the text and the
updated cache, a flag recording whether it regenerated from the store
(true) or answered from the cache (false). -/

/-- ALLOWED_EXTENSIONS of src/gateway/config.py. -/
def allowed_extensions : List String :=
  [".txt", ".md", ".json", ".csv", ".xml", ".yaml", ".yml",
   ".doc", ".docx", ".pdf", ".rtf", ".xls", ".xlsx", ".html", ".htm",
   ".py", ".js", ".ts", ".java", ".cpp", ".c", ".h", ".css"]

/-- One file as the server.py walk sees it. -/
structure SFile where
  name : String
  suffix : String
  content : String
deriving DecidableEq, Repr

/-- The document store read by server.py load_company_context. -/
structure SStore where
  configLines : List String
  companyFiles : List SFile
  uploadFiles : List SFile
deriving DecidableEq, Repr

/-- server.py lines 245-259: a file contributes when its extension is
allowed, its extracted content is non-empty, and the content does not
start with a bracket (the error/unsupported marker of
extract_text_from_file there). -/
def server_keep (f : SFile) : Bool :=
  allowed_extensions.contains f.suffix && !(f.content == "")
    && !(pyStartsWith f.content "[")

/-- server.py line 249: the section of a kept company_info file. -/
def server_company_section (f : SFile) : String :=
  "\n--- " ++ f.name ++ " ---\n" ++ f.content

/-- server.py line 260: the section of a kept uploads file. -/
def server_upload_section (f : SFile) : String :=
  "\n--- Uploaded: " ++ f.name ++ " ---\n" ++ f.content

/-- The regeneration walk of server.py load_company_context (lines
230-264): config lines, then each kept company file with its
"--- name ---" header, then each kept upload with its
"--- Uploaded: name ---" header, joined by newlines.  The rglob walk is
not sorted (line 244, unlike line 83 of documents.py), so the files are
taken in the order the store lists them. -/
def server_regen (s : SStore) : String :=
  String.intercalate "\n" (s.configLines ++
    s.companyFiles.filterMap (fun f =>
      if server_keep f then some (server_company_section f) else none) ++
    s.uploadFiles.filterMap (fun f =>
      if server_keep f then some (server_upload_section f) else none))

/-- CONTEXT_CACHE_TTL of src/gateway/config.py and server.py line 88. -/
def CONTEXT_CACHE_TTL : Nat := 60

/-- The process-wide _context_cache of server.py line 87, initially
content None, timestamp 0. -/
structure SCache where
  content : Option String
  timestamp : Nat
deriving DecidableEq, Repr

/-- Python truthiness of _context_cache["content"]: None and the empty
string are falsy. -/
def truthy_content : Option String → Bool
  | none => false
  | some s => s != ""

/-- server.py load_company_context (lines 221-268): a cache hit requires
force_refresh false, truthy cached content and age under TTL; otherwise
the store is walked, the cache entry is replaced and the fresh text is
returned. -/
def server_load_company_context (force_refresh : Bool) (c : SCache) (s : SStore)
    (now : Nat) : String × SCache × Bool :=
  if !force_refresh && truthy_content c.content
      && decide (now - c.timestamp < CONTEXT_CACHE_TTL) then
    (c.content.getD "", c, false)
  else
    let r := server_regen s
    (r, ⟨some r, now⟩, true)

/-- The server process state touched by the file endpoints: the document
store and the context cache. -/
structure ServerState where
  store : SStore
  cache : SCache
deriving DecidableEq, Repr

/-- The collision-avoiding rename loop of upload_file (server.py lines
662-667), bounded by the number of existing files plus one. -/
def fresh_upload_name (names : List String) (stem suffix : String) : String :=
  if !(names.contains (stem ++ suffix)) then stem ++ suffix
  else
    match (List.range (names.length + 1)).find?
        (fun i => !(names.contains (stem ++ "_" ++ toString (i + 1) ++ suffix))) with
    | some i => stem ++ "_" ++ toString (i + 1) ++ suffix
    | none => stem ++ suffix

/-- upload_file (server.py lines 635-677): rejects a disallowed
extension (HTTP 400, modelled as none), otherwise writes the file under
a collision-free name into the chosen directory.  The function contains
no statement touching _context_cache. -/
def server_upload_file (st : ServerState) (stem suffix extracted : String)
    (toCompany : Bool) : Option ServerState :=
  if !(allowed_extensions.contains suffix) then none
  else if toCompany then
    let name := fresh_upload_name (st.store.companyFiles.map (·.name)) stem suffix
    some { st with store := { st.store with
      companyFiles := st.store.companyFiles ++ [⟨name, suffix, extracted⟩] } }
  else
    let name := fresh_upload_name (st.store.uploadFiles.map (·.name)) stem suffix
    some { st with store := { st.store with
      uploadFiles := st.store.uploadFiles ++ [⟨name, suffix, extracted⟩] } }

/-- delete_file (server.py lines 740-769): 404 when the file does not
exist, 403 for config.json in company_info (modelled as none), otherwise
the file is removed.  The function contains no statement touching
_context_cache. -/
def server_delete_file (st : ServerState) (filename : String)
    (fromCompany : Bool) : Option ServerState :=
  if fromCompany then
    if !(st.store.companyFiles.any (fun f => f.name == filename)) then none
    else if filename == "config.json" then none
    else some { st with store := { st.store with
      companyFiles := st.store.companyFiles.filter (fun f => !(f.name == filename)) } }
  else
    if !(st.store.uploadFiles.any (fun f => f.name == filename)) then none
    else some { st with store := { st.store with
      uploadFiles := st.store.uploadFiles.filter (fun f => !(f.name == filename)) } }

/-! ## Document module context (src/gateway/documents.py)

documents.py load_company_context walks sorted(COMPANY_INFO_DIR.rglob)
— modelled as sorting the file list by the relative path string — and
keeps each file whose extracted content is truthy and free of the
"[Binary" / "[Error" markers of extract_text_from_file.  Its cache is
the dict-of-dicts from config.py: data, timestamps and a ttl. -/

/-- One file of the documents.py walk: its path relative to
COMPANY_INFO_DIR and the text extract_text_from_file returns for it. -/
structure DocFile where
  path : String
  extracted : String
deriving DecidableEq, Repr

/-- documents.py line 86: the file is kept when content is truthy and
does not start with "[Binary" or "[Error". -/
def keep_content (content : String) : Bool :=
  !(content == "") && !(pyStartsWith content "[Binary")
    && !(pyStartsWith content "[Error")

/-- The sorted(...) walk order of documents.py line 83: lexicographic
order of the relative path. -/
def pathOrder (f g : DocFile) : Prop := f.path ≤ g.path

instance : DecidableRel pathOrder := fun f g =>
  inferInstanceAs (Decidable (f.path ≤ g.path))

instance : IsTotal DocFile pathOrder := ⟨fun a b => le_total a.path b.path⟩

instance : IsTrans DocFile pathOrder := ⟨fun _ _ _ hab hbc => le_trans hab hbc⟩

/-- The document list in walk order. -/
def sortByPath (files : List DocFile) : List DocFile :=
  List.insertionSort pathOrder files

/-- documents.py line 88: a path header followed by the extracted
content. -/
def section_of (f : DocFile) : String :=
  "=== " ++ f.path ++ " ===\n" ++ f.extracted

/-- The context_parts list of documents.py lines 80-88. -/
def documents_sections (files : List DocFile) : List String :=
  (sortByPath files).filterMap (fun f =>
    if keep_content f.extracted then some (section_of f) else none)

/-- documents.py line 90: the parts joined by blank lines. -/
def documents_regen (files : List DocFile) : String :=
  String.intercalate "\n\n" (documents_sections files)

/-- Association-list read of a Python dict entry. -/
def assocGet {α : Type} (l : List (String × α)) (k : String) : Option α :=
  (l.find? (fun p => p.1 == k)).map (·.2)

/-- Association-list write of a Python dict entry. -/
def assocSet {α : Type} (l : List (String × α)) (k : String) (v : α) :
    List (String × α) :=
  (k, v) :: l.filter (fun p => !(p.1 == k))

/-- Association-list del of a Python dict entry. -/
def assocDel {α : Type} (l : List (String × α)) (k : String) :
    List (String × α) :=
  l.filter (fun p => !(p.1 == k))

/-- The cache dict of src/gateway/config.py lines 74-78. -/
structure DCache where
  data : List (String × String)
  timestamps : List (String × Nat)
  ttl : Nat
deriving DecidableEq, Repr

/-- documents.py lines 90-97: regenerate the context and store it with
the current timestamp. -/
def documents_store_result (c : DCache) (files : List DocFile) (now : Nat) :
    String × DCache × Bool :=
  let ctx := documents_regen files
  (ctx, { c with data := assocSet c.data "company_context" ctx,
                 timestamps := assocSet c.timestamps "company_context" now },
   true)

/-- documents.py load_company_context (lines 70-97): a cache hit requires
the key present in data, a positive stored timestamp and age under ttl;
otherwise the walk regenerates.  The returned flag records whether a
regeneration happened. -/
def documents_load_company_context (c : DCache) (files : List DocFile)
    (now : Nat) : String × DCache × Bool :=
  match assocGet c.data "company_context" with
  | some content =>
      let ts := (assocGet c.timestamps "company_context").getD 0
      if ts > 0 ∧ now - ts < c.ttl then (content, c, false)
      else documents_store_result c files now
  | none => documents_store_result c files now

/-- documents.py save_uploaded_file (lines 127-146): write the file and
delete the company_context entry from the cache data and timestamps. -/
def documents_save_uploaded_file (files : List DocFile) (c : DCache)
    (path extracted : String) : List DocFile × DCache :=
  (files ++ [⟨path, extracted⟩],
   { c with data := assocDel c.data "company_context",
            timestamps := assocDel c.timestamps "company_context" })

/-! ## Conversation memory (src/gateway/database.py and
src/gateway/server_enhanced.py)

The database is modelled as an association list from session_id to a
conversation record holding its messages in insertion (chronological)
order.  process_with_memory is modelled with memory enabled
(DB_AVAILABLE and enable_memory true) and with the uuid for a fresh
session supplied as a parameter; the AI call of query_ai_server is an
oracle from the user text and the fetched history to the response.  The
returned event trace records, in program order, the session creation,
the history fetch, each persisted message and the provider call, so the
persistence ordering of the claim is statable. -/

/-- One stored message row (role, content). -/
structure Msg where
  role : String
  content : String
deriving DecidableEq, Repr

/-- One conversation row with its owned messages. -/
structure Conversation where
  clientId : String
  title : String
  messages : List Msg
deriving DecidableEq, Repr

/-- The conversations table keyed by session_id. -/
def MemStore : Type := List (String × Conversation)

/-- Lookup of the conversation with a given session_id. -/
def storeFind (st : MemStore) (sid : String) : Option Conversation :=
  (st.find? (fun p => p.1 == sid)).map (·.2)

/-- MemoryStore.create_conversation (database.py lines 107-130): insert
a new conversation row with no messages. -/
def create_conversation (st : MemStore) (clientId sid title : String) : MemStore :=
  (sid, ⟨clientId, title, []⟩) :: st

/-- MemoryStore.get_conversation_history (database.py lines 170-193):
the most recent `limit` messages of the conversation, oldest first; an
unknown session yields the empty history. -/
def get_conversation_history (st : MemStore) (sid : String) (limit : Nat) :
    List Msg :=
  match storeFind st sid with
  | none => []
  | some conv => conv.messages.drop (conv.messages.length - limit)

/-- MemoryStore.add_message (database.py lines 142-167): append the
message to the conversation, or fail (ValueError) when the session is
unknown. -/
def add_message (st : MemStore) (sid role content : String) : Option MemStore :=
  match storeFind st sid with
  | none => none
  | some _ => some (st.map (fun p =>
      if p.1 = sid then
        (p.1, { p.2 with messages := p.2.messages ++ [⟨role, content⟩] })
      else p))

/-- The observable steps of process_with_memory, in program order. -/
inductive MemEvent
  | createSession (sid : String)
  | fetchHistory (sid : String)
  | persistMsg (sid role content : String)
  | providerCall (text : String) (history : List Msg)
deriving DecidableEq, Repr

/-- server_enhanced.py line 286: title = text[:50] + "..." if len(text)
> 50 else text. -/
def mk_title (text : String) : String :=
  if text.length > 50 then pyTake text 50 ++ "..." else text

/-- process_with_memory (server_enhanced.py lines 264-312), with memory
enabled.  In program order: create the session when none was supplied,
fetch the history window, persist the user message (a failing
add_message is swallowed by the except branch), call the AI with the
fetched history, persist the assistant reply (again best-effort).
Returns (response, session_id, new store, event trace). -/
def process_with_memory (aiFn : String → List Msg → String) (freshId : String)
    (contextLength : Nat) (st : MemStore) (text clientId : String)
    (sessionId : Option String) :
    String × String × MemStore × List MemEvent :=
  let sid := match sessionId with
    | none => freshId
    | some s => s
  let st1 := match sessionId with
    | none => create_conversation st clientId freshId (mk_title text)
    | some _ => st
  let ev1 : List MemEvent := match sessionId with
    | none => [MemEvent.createSession freshId]
    | some _ => []
  let history := get_conversation_history st1 sid contextLength
  let (st2, ev2) := match add_message st1 sid "user" text with
    | some st' => (st', [MemEvent.persistMsg sid "user" text])
    | none => (st1, [])
  let resp := aiFn text history
  let (st3, ev3) := match add_message st2 sid "assistant" resp with
    | some st' => (st', [MemEvent.persistMsg sid "assistant" resp])
    | none => (st2, [])
  (resp, sid, st3,
   ev1 ++ [MemEvent.fetchHistory sid] ++ ev2 ++
     [MemEvent.providerCall text history] ++ ev3)

/-- C1: if the primary adapter fails and fallback is enabled, ask_ai
invokes the alternate provider with the same prompt arguments, and when
the alternate succeeds it returns the alternate response text annotated
as having used the fallback, with provider_used equal to the fallback
provider name. -/
theorem C1_fallback_success (env : AskEnv)
    (prompt context system_prompt language provider : String)
    (model : Option String) (e t : String)
    (hprov : provider = "ollama" ∨ provider = "gemini")
    (hp : env (primary_provider_name provider)
      (primary_args prompt context system_prompt language provider model) = (false, e))
    (hf : env (fallback_name provider)
      (fallback_args prompt context system_prompt language) = (true, t)) :
    ask_ai env prompt context system_prompt language provider model true =
      ((t ++ "\n\n*(Using " ++ fallback_name provider ++ " as fallback)*",
        fallback_name provider),
       [(primary_provider_name provider,
         primary_args prompt context system_prompt language provider model),
        (fallback_name provider,
         fallback_args prompt context system_prompt language)]) ∧
    fallback_name provider ≠ primary_provider_name provider := by
  rcases hprov with h | h
  · subst h
    have hp2 : env "ollama"
        (primary_args prompt context system_prompt language "ollama" model) =
        (false, e) := hp
    have hf2 : env "gemini" (fallback_args prompt context system_prompt language) =
        (true, t) := hf
    simp [ask_ai, primary_provider_name, fallback_name, hp2, hf2]
  · subst h
    have hp2 : env "gemini"
        (primary_args prompt context system_prompt language "gemini" model) =
        (false, e) := hp
    have hf2 : env "ollama" (fallback_args prompt context system_prompt language) =
        (true, t) := hf
    simp [ask_ai, primary_provider_name, fallback_name, hp2, hf2]

/-- Witness for C1 at a concrete environment where ollama always fails
and gemini always succeeds. -/
theorem C1_fallback_success_witness :
    ask_ai (fun name _ => if name = "gemini" then (true, "pong") else (false, "down"))
      "hi" "" "sys" "en" "ollama" none true =
      (("pong" ++ "\n\n*(Using " ++ fallback_name "ollama" ++ " as fallback)*",
        fallback_name "ollama"),
       [(primary_provider_name "ollama",
         primary_args "hi" "" "sys" "en" "ollama" none),
        (fallback_name "ollama", fallback_args "hi" "" "sys" "en")]) ∧
    fallback_name "ollama" ≠ primary_provider_name "ollama" :=
  C1_fallback_success
    (fun name _ => if name = "gemini" then (true, "pong") else (false, "down"))
    "hi" "" "sys" "en" "ollama" none "down" "pong" (Or.inl rfl) rfl rfl

/-- C2: if the primary adapter fails then with fallback disabled ask_ai
returns the failure result without invoking any further adapter, and
with fallback enabled but failing it returns the same failure result;
in both cases the text carries the primary error message prefixed with
"Error: " and the provider name attempted. -/
theorem C2_failure_result (env : AskEnv)
    (prompt context system_prompt language provider : String)
    (model : Option String) (e : String)
    (hprov : provider = "ollama" ∨ provider = "gemini")
    (hp : env (primary_provider_name provider)
      (primary_args prompt context system_prompt language provider model) = (false, e)) :
    (ask_ai env prompt context system_prompt language provider model false =
      (("Error: " ++ e, provider),
       [(primary_provider_name provider,
         primary_args prompt context system_prompt language provider model)])) ∧
    (∀ e2, env (fallback_name provider)
        (fallback_args prompt context system_prompt language) = (false, e2) →
      ask_ai env prompt context system_prompt language provider model true =
        (("Error: " ++ e, provider),
         [(primary_provider_name provider,
           primary_args prompt context system_prompt language provider model),
          (fallback_name provider,
           fallback_args prompt context system_prompt language)])) := by
  constructor
  · rcases hprov with h | h
    · subst h
      have hp2 : env "ollama"
          (primary_args prompt context system_prompt language "ollama" model) =
          (false, e) := hp
      simp [ask_ai, primary_provider_name, fallback_name, hp2]
    · subst h
      have hp2 : env "gemini"
          (primary_args prompt context system_prompt language "gemini" model) =
          (false, e) := hp
      simp [ask_ai, primary_provider_name, fallback_name, hp2]
  · intro e2 hf
    rcases hprov with h | h
    · subst h
      have hp2 : env "ollama"
          (primary_args prompt context system_prompt language "ollama" model) =
          (false, e) := hp
      have hf2 : env "gemini" (fallback_args prompt context system_prompt language) =
          (false, e2) := hf
      simp [ask_ai, primary_provider_name, fallback_name, hp2, hf2]
    · subst h
      have hp2 : env "gemini"
          (primary_args prompt context system_prompt language "gemini" model) =
          (false, e) := hp
      have hf2 : env "ollama" (fallback_args prompt context system_prompt language) =
          (false, e2) := hf
      simp [ask_ai, primary_provider_name, fallback_name, hp2, hf2]

/-- Witness for C2 at a concrete environment where both adapters fail. -/
theorem C2_failure_result_witness :
    (ask_ai (fun _ _ => (false, "boom")) "hi" "" "sys" "en" "ollama" none false =
      (("Error: " ++ "boom", "ollama"),
       [(primary_provider_name "ollama",
         primary_args "hi" "" "sys" "en" "ollama" none)])) ∧
    (∀ e2, (fun (_ : String) (_ : PromptArgs) => ((false, "boom") : Bool × String))
        (fallback_name "ollama") (fallback_args "hi" "" "sys" "en") = (false, e2) →
      ask_ai (fun _ _ => (false, "boom")) "hi" "" "sys" "en" "ollama" none true =
        (("Error: " ++ "boom", "ollama"),
         [(primary_provider_name "ollama",
           primary_args "hi" "" "sys" "en" "ollama" none),
          (fallback_name "ollama", fallback_args "hi" "" "sys" "en")])) :=
  C2_failure_result (fun _ _ => (false, "boom")) "hi" "" "sys" "en" "ollama" none
    "boom" (Or.inl rfl) rfl

/-- C7 counterexample: in the server.py adapter, the unrecognized
language code "fr" produces an empty language instruction while "en"
produces "Respond in English", so the assembled system prompts differ
even though all other inputs are identical. -/
theorem C7_counterexample :
    server_system_prompt "You are Nora." "ctx" "fr" ≠
      server_system_prompt "You are Nora." "ctx" "en" := by
  decide

/-- C7 amended: in the ai_providers.py adapters an unrecognized language
code produces exactly the instruction of the default code "en", so the
assembled full system prompts are equal; in the server.py adapter an
unrecognized code instead produces the empty instruction. -/
theorem C7_amended (system_prompt context lang : String)
    (h1 : lang ≠ "no") (h2 : lang ≠ "en") :
    ollama_full_system system_prompt context lang =
      ollama_full_system system_prompt context "en" ∧
    gemini_lang_instruction lang = gemini_lang_instruction "en" ∧
    server_lang_instruction lang = "" := by
  refine ⟨?_, ?_, ?_⟩ <;>
    simp [ollama_full_system, ollama_lang_instruction, gemini_lang_instruction,
      server_lang_instruction, h1, h2]

/-- Witness for C7 amended at the unrecognized code "fr". -/
theorem C7_amended_witness :
    ollama_full_system "sys" "ctx" "fr" = ollama_full_system "sys" "ctx" "en" ∧
    gemini_lang_instruction "fr" = gemini_lang_instruction "en" ∧
    server_lang_instruction "fr" = "" :=
  C7_amended "sys" "ctx" "fr" (by decide) (by decide)

/-- C10: a provider response longer than max_response_length is returned
as its first max_response_length characters with "..." appended (three
characters beyond the configured maximum), and a response at or under
the limit is returned unchanged. -/
theorem C10_truncation (maxLen : Nat) (t : String) :
    (t.length > maxLen →
      query_ai_server maxLen (Except.ok t) = pyTake t maxLen ++ "..." ∧
      (query_ai_server maxLen (Except.ok t)).length = maxLen + 3) ∧
    (t.length ≤ maxLen → query_ai_server maxLen (Except.ok t) = t) := by
  have hq : query_ai_server maxLen (Except.ok t) = truncate_response maxLen t := rfl
  constructor
  · intro h
    have htr : truncate_response maxLen t = pyTake t maxLen ++ "..." := by
      unfold truncate_response
      exact if_pos h
    refine ⟨hq.trans htr, ?_⟩
    rw [hq, htr, String.length_append]
    have hlen : (pyTake t maxLen).length = maxLen := by
      show (t.data.take maxLen).length = maxLen
      rw [List.length_take]
      exact Nat.min_eq_left (Nat.le_of_lt h)
    rw [hlen]
    rfl
  · intro h
    rw [hq]
    unfold truncate_response
    exact if_neg (by omega)

/-- Witness for C10 at a response of length 5 with limit 3 and a
response of length 2 with limit 5. -/
theorem C10_truncation_witness :
    query_ai_server 3 (Except.ok "hello") = pyTake "hello" 3 ++ "..." ∧
    (query_ai_server 3 (Except.ok "hello")).length = 3 + 3 ∧
    query_ai_server 5 (Except.ok "hi") = "hi" :=
  ⟨((C10_truncation 3 "hello").1 (by decide)).1,
   ((C10_truncation 3 "hello").1 (by decide)).2,
   (C10_truncation 5 "hi").2 (by decide)⟩

/-- Forwarding lemma: a failure-free chunk prefix is passed through the
ollama runner (keeping non-empty chunks) and the runner continues with
the remaining events. -/
theorem run_ollama_stream_chunks (pre : List String)
    (tail : List OllamaStreamEvent) :
    run_ollama_stream (pre.map OllamaStreamEvent.chunk ++ tail) =
      pre.filter (fun s => s ≠ "") ++ run_ollama_stream tail := by
  induction pre with
  | nil => simp
  | cons s ss ih =>
      by_cases h : s = "" <;> simp [run_ollama_stream, h, ih]

/-- Forwarding lemma: a failure-free chunk prefix is passed through the
gemini runner unchanged and the runner continues with the remaining
events. -/
theorem run_gemini_stream_chunks (pre : List String)
    (tail : List GeminiStreamEvent) :
    run_gemini_stream (pre.map GeminiStreamEvent.chunk ++ tail) =
      pre ++ run_gemini_stream tail := by
  induction pre with
  | nil => simp
  | cons s ss ih => simp [run_gemini_stream, ih]

/-- C5: a backend failure after any prefix of delivered chunks never
escapes the chunk sequence: the ollama and gemini streams yield the
delivered chunks followed by exactly one final bracketed error chunk and
then end, while a failure-free backend run ends the sequence normally
with only the delivered chunks. -/
theorem C5_stream_error_sentinel (pre : List String) (e body : String) (st : Nat)
    (restO : List OllamaStreamEvent) (restG : List GeminiStreamEvent) :
    run_ollama_stream
        (pre.map OllamaStreamEvent.chunk ++ OllamaStreamEvent.exn e :: restO) =
      pre.filter (fun s => s ≠ "") ++ ["\n\n[Error: " ++ e ++ "]"] ∧
    run_ollama_stream (pre.map OllamaStreamEvent.chunk) =
      pre.filter (fun s => s ≠ "") ∧
    run_gemini_stream
        (pre.map GeminiStreamEvent.chunk ++ GeminiStreamEvent.exn e :: restG) =
      pre ++ ["\n\n[Error: " ++ e ++ "]"] ∧
    run_gemini_stream
        (pre.map GeminiStreamEvent.chunk ++
          GeminiStreamEvent.httpError st body :: restG) =
      pre ++ ["[Error: " ++ toString st ++ " - " ++ pyTake body 100 ++ "]"] ∧
    run_gemini_stream (pre.map GeminiStreamEvent.chunk) = pre := by
  refine ⟨?_, ?_, ?_, ?_, ?_⟩
  · rw [run_ollama_stream_chunks]; rfl
  · have h := run_ollama_stream_chunks pre []
    simpa [run_ollama_stream] using h
  · rw [run_gemini_stream_chunks]; rfl
  · rw [run_gemini_stream_chunks]; rfl
  · have h := run_gemini_stream_chunks pre []
    simpa [run_gemini_stream] using h

/-- C6: with a missing or placeholder credential, both the blocking and
the streaming gemini adapter return the not-configured failure for every
possible network outcome, and the blocking adapter reports that no
network call was attempted. -/
theorem C6_credential_fail_fast (apiKey : String) (model : Option String)
    (cfgModel : String) (net : GeminiNetResult)
    (events : List GeminiStreamEvent)
    (h : apiKey = "" ∨ apiKey = GEMINI_PLACEHOLDER) :
    ask_gemini apiKey model cfgModel net =
      ((false, "Gemini API key not configured. Set GEMINI_API_KEY in your .env file."),
       false) ∧
    stream_gemini apiKey events = ["[Error: Gemini API key not configured]"] := by
  have hk : gemini_key_missing apiKey = true := by
    rcases h with h | h <;> simp [gemini_key_missing, h]
  constructor
  · simp [ask_gemini, hk]
  · simp [stream_gemini, hk]

/-- Witness for C6 at the empty credential and a network oracle that
would succeed. -/
theorem C6_credential_fail_fast_witness :
    ask_gemini "" none "gemini-2.0-flash" (GeminiNetResult.ok "hi") =
      ((false, "Gemini API key not configured. Set GEMINI_API_KEY in your .env file."),
       false) ∧
    stream_gemini "" [GeminiStreamEvent.chunk "hi"] =
      ["[Error: Gemini API key not configured]"] :=
  C6_credential_fail_fast "" none "gemini-2.0-flash" (GeminiNetResult.ok "hi")
    [GeminiStreamEvent.chunk "hi"] (Or.inl rfl)

/-- C3 counterexample: on an empty document store the regenerated
context is the empty string, which the server cache condition treats as
absent (Python truthiness of _context_cache["content"]), so the second
of two force_refresh=false calls made one second apart, with no store
mutation in between, regenerates again (flag true) instead of being a
pure cache hit — the identical-content part holds but the
no-regeneration part fails. -/
theorem C3_counterexample :
    server_load_company_context false ⟨none, 0⟩ ⟨[], [], []⟩ 0 =
      ("", ⟨some "", 0⟩, true) ∧
    server_load_company_context false ⟨some "", 0⟩ ⟨[], [], []⟩ 1 =
      ("", ⟨some "", 1⟩, true) := by
  constructor <;> rfl

/-- C3 amended: provided the regenerated context is non-empty, a second
get_context call with force_refresh false within TTL of a regeneration
returns byte-identical content without regenerating and leaves the
cache untouched, while a forced refresh or a call past TTL regenerates
from the document store before returning. -/
theorem C3_cache_ttl (c : SCache) (s : SStore) (t1 t2 : Nat)
    (hne : server_regen s ≠ "") (httl : t2 - t1 < CONTEXT_CACHE_TTL) :
    server_load_company_context true c s t1 =
      (server_regen s, ⟨some (server_regen s), t1⟩, true) ∧
    server_load_company_context false ⟨some (server_regen s), t1⟩ s t2 =
      (server_regen s, ⟨some (server_regen s), t1⟩, false) ∧
    server_load_company_context true ⟨some (server_regen s), t1⟩ s t2 =
      (server_regen s, ⟨some (server_regen s), t2⟩, true) ∧
    ∀ t3, CONTEXT_CACHE_TTL ≤ t3 - t1 →
      server_load_company_context false ⟨some (server_regen s), t1⟩ s t3 =
        (server_regen s, ⟨some (server_regen s), t3⟩, true) := by
  have ht : truthy_content (some (server_regen s)) = true := by
    simp [truthy_content, hne]
  refine ⟨?_, ?_, ?_, ?_⟩
  · simp [server_load_company_context]
  · simp [server_load_company_context, ht, httl]
  · simp [server_load_company_context]
  · intro t3 h3
    have hlt : ¬ (t3 - t1 < CONTEXT_CACHE_TTL) := by omega
    simp [server_load_company_context, hlt]

/-- Witness for C3 amended: a one-line store, first call at time 0,
cached read at time 30, forced refresh at time 30, expired read at time
100. -/
theorem C3_cache_ttl_witness :
    server_load_company_context true ⟨none, 0⟩ ⟨["Company: X"], [], []⟩ 0 =
      (server_regen ⟨["Company: X"], [], []⟩,
       ⟨some (server_regen ⟨["Company: X"], [], []⟩), 0⟩, true) ∧
    server_load_company_context false
        ⟨some (server_regen ⟨["Company: X"], [], []⟩), 0⟩
        ⟨["Company: X"], [], []⟩ 30 =
      (server_regen ⟨["Company: X"], [], []⟩,
       ⟨some (server_regen ⟨["Company: X"], [], []⟩), 0⟩, false) ∧
    server_load_company_context true
        ⟨some (server_regen ⟨["Company: X"], [], []⟩), 0⟩
        ⟨["Company: X"], [], []⟩ 30 =
      (server_regen ⟨["Company: X"], [], []⟩,
       ⟨some (server_regen ⟨["Company: X"], [], []⟩), 30⟩, true) ∧
    server_load_company_context false
        ⟨some (server_regen ⟨["Company: X"], [], []⟩), 0⟩
        ⟨["Company: X"], [], []⟩ 100 =
      (server_regen ⟨["Company: X"], [], []⟩,
       ⟨some (server_regen ⟨["Company: X"], [], []⟩), 100⟩, true) := by
  have H := C3_cache_ttl ⟨none, 0⟩ ⟨["Company: X"], [], []⟩ 0 30
    (by decide) (by decide)
  exact ⟨H.1, H.2.1, H.2.2.1, H.2.2.2 100 (by decide)⟩

/-- C8 counterexample: the server delete_file endpoint removes the file
but leaves the context cache entry in place, so a get_context call one
second later is a cache hit returning the blob that still contains the
deleted file, although regeneration from the mutated store would return
the empty context. -/
theorem C8_counterexample :
    server_load_company_context false ⟨none, 0⟩
        ⟨[], [⟨"a.txt", ".txt", "hello"⟩], []⟩ 0 =
      ("\n--- a.txt ---\nhello", ⟨some "\n--- a.txt ---\nhello", 0⟩, true) ∧
    server_delete_file
        ⟨⟨[], [⟨"a.txt", ".txt", "hello"⟩], []⟩,
         ⟨some "\n--- a.txt ---\nhello", 0⟩⟩ "a.txt" true =
      some ⟨⟨[], [], []⟩, ⟨some "\n--- a.txt ---\nhello", 0⟩⟩ ∧
    server_load_company_context false ⟨some "\n--- a.txt ---\nhello", 0⟩
        ⟨[], [], []⟩ 1 =
      ("\n--- a.txt ---\nhello", ⟨some "\n--- a.txt ---\nhello", 0⟩, false) ∧
    server_regen ⟨[], [], []⟩ = "" ∧
    ("\n--- a.txt ---\nhello" : String) ≠ "" := by
  refine ⟨by decide, by decide, by decide, by decide, by decide⟩

/-- The company_context entry is absent after a dict del. -/
theorem assocGet_assocDel {α : Type} (l : List (String × α)) (k : String) :
    assocGet (assocDel l k) k = none := by
  have hfind : (l.filter (fun p => !(p.1 == k))).find? (fun p => p.1 == k) = none := by
    rw [List.find?_eq_none]
    intro x hx
    have hmem := (List.mem_filter.mp hx).2
    simpa using hmem
  simp [assocGet, assocDel, hfind]

/-- C8 amended: an upload through documents.save_uploaded_file deletes
the company_context entry from both cache dicts, so the next documents
load regenerates from the store; the server upload_file and delete_file
endpoints, by contrast, leave the server context cache of
load_company_context completely unchanged. -/
theorem C8_amended (files : List DocFile) (c : DCache) (path extracted : String)
    (now : Nat) :
    assocGet (documents_save_uploaded_file files c path extracted).2.data
      "company_context" = none ∧
    assocGet (documents_save_uploaded_file files c path extracted).2.timestamps
      "company_context" = none ∧
    (documents_load_company_context
        (documents_save_uploaded_file files c path extracted).2
        (documents_save_uploaded_file files c path extracted).1 now).2.2 = true ∧
    (∀ st filename b st2, server_delete_file st filename b = some st2 →
      st2.cache = st.cache) ∧
    (∀ st stem suffix extracted2 b st2,
      server_upload_file st stem suffix extracted2 b = some st2 →
      st2.cache = st.cache) := by
  refine ⟨assocGet_assocDel _ _, assocGet_assocDel _ _, ?_, ?_, ?_⟩
  · simp [documents_load_company_context, documents_save_uploaded_file,
      assocGet_assocDel, documents_store_result]
  · intro st filename b st2 h
    unfold server_delete_file at h
    split at h
    · split at h
      · simp at h
      · split at h
        · simp at h
        · injection h with h2
          subst h2
          rfl
    · split at h
      · simp at h
      · injection h with h2
        subst h2
        rfl
  · intro st stem suffix extracted2 b st2 h
    unfold server_upload_file at h
    split at h
    · simp at h
    · split at h
      · injection h with h2
        subst h2
        rfl
      · injection h with h2
        subst h2
        rfl

/-- Witness for C8 amended: a populated documents cache invalidated by a
save, a concrete delete and a concrete upload on the server state. -/
theorem C8_amended_witness :
    assocGet (documents_save_uploaded_file []
        ⟨[("company_context", "old")], [("company_context", 5)], 60⟩
        "a.txt" "hi").2.data "company_context" = none ∧
    assocGet (documents_save_uploaded_file []
        ⟨[("company_context", "old")], [("company_context", 5)], 60⟩
        "a.txt" "hi").2.timestamps "company_context" = none ∧
    (documents_load_company_context
        (documents_save_uploaded_file []
          ⟨[("company_context", "old")], [("company_context", 5)], 60⟩
          "a.txt" "hi").2
        (documents_save_uploaded_file []
          ⟨[("company_context", "old")], [("company_context", 5)], 60⟩
          "a.txt" "hi").1 10).2.2 = true ∧
    (⟨⟨[], [], []⟩, ⟨some "x", 0⟩⟩ : ServerState).cache =
      (⟨⟨[], [⟨"a.txt", ".txt", "hello"⟩], []⟩, ⟨some "x", 0⟩⟩ : ServerState).cache ∧
    (⟨⟨[], [⟨"b.txt", ".txt", "t"⟩], []⟩, ⟨some "x", 0⟩⟩ : ServerState).cache =
      (⟨⟨[], [], []⟩, ⟨some "x", 0⟩⟩ : ServerState).cache := by
  have H := C8_amended []
    ⟨[("company_context", "old")], [("company_context", 5)], 60⟩ "a.txt" "hi" 10
  exact ⟨H.1, H.2.1, H.2.2.1,
    H.2.2.2.1 ⟨⟨[], [⟨"a.txt", ".txt", "hello"⟩], []⟩, ⟨some "x", 0⟩⟩ "a.txt" true
      ⟨⟨[], [], []⟩, ⟨some "x", 0⟩⟩ rfl,
    H.2.2.2.2 ⟨⟨[], [], []⟩, ⟨some "x", 0⟩⟩ "b" ".txt" "t" true
      ⟨⟨[], [⟨"b.txt", ".txt", "t"⟩], []⟩, ⟨some "x", 0⟩⟩ rfl⟩

/-- C9 counterexample, one concrete violation per walk.  documents.py:
a readable file whose extracted content is the empty string — carrying
neither the "[Binary" nor the "[Error" marker — is omitted from the
section list.  server.py: a readable .json file whose content is a
top-level array (starts with "[" but with neither marker) is omitted;
a readable .log text file is omitted because .log is not a whitelisted
extension; and two files given in reverse lexicographic order are
emitted in that store (rglob) order, b.txt before a.txt, not in
lexicographic path order. -/
theorem C9_counterexample :
    documents_sections [⟨"empty.txt", ""⟩] = [] ∧
    pyStartsWith "" "[Binary" = false ∧
    pyStartsWith "" "[Error" = false ∧
    server_regen ⟨[], [⟨"arr.json", ".json", "[1, 2]"⟩], []⟩ = "" ∧
    pyStartsWith "[1, 2]" "[Binary" = false ∧
    pyStartsWith "[1, 2]" "[Error" = false ∧
    server_regen ⟨[], [⟨"notes.log", ".log", "hello"⟩], []⟩ = "" ∧
    server_regen ⟨[], [⟨"b.txt", ".txt", "B"⟩, ⟨"a.txt", ".txt", "A"⟩], []⟩ =
      "\n--- b.txt ---\nB\n\n--- a.txt ---\nA" := by
  refine ⟨rfl, by decide, by decide, by decide, by decide, by decide,
    by decide, by decide⟩

/-- Keeping sections through a boolean filter equals filtering then
mapping the header function. -/
theorem filterMap_if_eq_map_filter {α β : Type} (g : α → β) (p : α → Bool)
    (l : List α) :
    l.filterMap (fun f => if p f then some (g f) else none) =
      (l.filter p).map g := by
  induction l with
  | nil => rfl
  | cons f l ih => by_cases h : p f <;> simp [h, ih]

/-- C9 amended, covering both cited walks.  documents.py: the walk
lists the store in lexicographic path order, its sections are exactly
the header-plus-content of the files whose extracted content is
non-empty and free of the "[Binary" / "[Error" markers — so
empty-content files are skipped along with the marker-bearing ones —
and no file is lost (the walk is a permutation of the store).
server.py: the walk keeps the store (rglob) order unsorted, and its
blob consists of the config lines followed by the sections, in that
order, of exactly the files with a whitelisted extension whose
extracted content is non-empty and does not start with "[" at all —
so readable files whose text begins with "[" and readable files with
non-whitelisted extensions are skipped as well. -/
theorem C9_amended (files : List DocFile) (s : SStore) :
    documents_sections files =
      ((sortByPath files).filter (fun f => keep_content f.extracted)).map
        section_of ∧
    List.Pairwise pathOrder (sortByPath files) ∧
    (sortByPath files).Perm files ∧
    (∀ f, f ∈ files → keep_content f.extracted = true →
      section_of f ∈ documents_sections files) ∧
    server_regen s = String.intercalate "\n" (s.configLines ++
      (s.companyFiles.filter server_keep).map server_company_section ++
      (s.uploadFiles.filter server_keep).map server_upload_section) ∧
    (∀ f : SFile, server_keep f = true ↔
      (allowed_extensions.contains f.suffix = true ∧ f.content ≠ "" ∧
        pyStartsWith f.content "[" = false)) := by
  have heq : documents_sections files =
      ((sortByPath files).filter (fun f => keep_content f.extracted)).map
        section_of :=
    filterMap_if_eq_map_filter _ _ _
  refine ⟨heq, ?_, ?_, ?_, ?_, ?_⟩
  · exact List.sorted_insertionSort pathOrder files
  · exact List.perm_insertionSort pathOrder files
  · intro f hf hk
    have hmem : f ∈ sortByPath files :=
      (List.mem_insertionSort pathOrder).mpr hf
    rw [heq]
    exact List.mem_map_of_mem section_of (List.mem_filter.mpr ⟨hmem, hk⟩)
  · show String.intercalate "\n" (s.configLines ++
        s.companyFiles.filterMap (fun f =>
          if server_keep f then some (server_company_section f) else none) ++
        s.uploadFiles.filterMap (fun f =>
          if server_keep f then some (server_upload_section f) else none)) = _
    rw [filterMap_if_eq_map_filter server_company_section server_keep,
      filterMap_if_eq_map_filter server_upload_section server_keep]
  · intro f
    simp [server_keep, and_assoc]

/-- Witness for C9 amended on a two-file documents store given in
reverse path order and a one-file server store. -/
theorem C9_amended_witness :
    documents_sections [⟨"b.txt", "x"⟩, ⟨"a.txt", "y"⟩] =
      ((sortByPath [⟨"b.txt", "x"⟩, ⟨"a.txt", "y"⟩]).filter
        (fun f => keep_content f.extracted)).map section_of ∧
    List.Pairwise pathOrder (sortByPath [⟨"b.txt", "x"⟩, ⟨"a.txt", "y"⟩]) ∧
    (sortByPath [⟨"b.txt", "x"⟩, ⟨"a.txt", "y"⟩]).Perm
      [⟨"b.txt", "x"⟩, ⟨"a.txt", "y"⟩] ∧
    section_of ⟨"a.txt", "y"⟩ ∈
      documents_sections [⟨"b.txt", "x"⟩, ⟨"a.txt", "y"⟩] ∧
    server_regen ⟨["Company: X"], [⟨"a.txt", ".txt", "hello"⟩], []⟩ =
      String.intercalate "\n" (["Company: X"] ++
        (([⟨"a.txt", ".txt", "hello"⟩] : List SFile).filter server_keep).map
          server_company_section ++
        (([] : List SFile).filter server_keep).map server_upload_section) ∧
    server_keep ⟨"a.txt", ".txt", "hello"⟩ = true := by
  have H := C9_amended [⟨"b.txt", "x"⟩, ⟨"a.txt", "y"⟩]
    ⟨["Company: X"], [⟨"a.txt", ".txt", "hello"⟩], []⟩
  exact ⟨H.1, H.2.1, H.2.2.1, H.2.2.2.1 ⟨"a.txt", "y"⟩ (by decide) (by decide),
    H.2.2.2.2.1,
    (H.2.2.2.2.2 ⟨"a.txt", ".txt", "hello"⟩).mpr
      ⟨by decide, by decide, by decide⟩⟩

/-- C4: handling a first message with no session and a second message on
the returned session stores exactly [user:text1, assistant:R1,
user:text2, assistant:R2] for that session, and in both turns the event
trace persists the user message before the provider call and the
assistant reply only after it — for every AI oracle, client, pair of
texts and history window. -/
theorem C4_persistence_order (aiFn : String → List Msg → String)
    (id1 text1 text2 clientId : String) (cLen : Nat) :
    process_with_memory aiFn id1 cLen [] text1 clientId none =
      (aiFn text1 [],
       id1,
       [(id1, ⟨clientId, mk_title text1,
          [⟨"user", text1⟩, ⟨"assistant", aiFn text1 []⟩]⟩)],
       [MemEvent.createSession id1, MemEvent.fetchHistory id1,
        MemEvent.persistMsg id1 "user" text1,
        MemEvent.providerCall text1 [],
        MemEvent.persistMsg id1 "assistant" (aiFn text1 [])]) ∧
    process_with_memory aiFn id1 cLen
        [(id1, ⟨clientId, mk_title text1,
           [⟨"user", text1⟩, ⟨"assistant", aiFn text1 []⟩]⟩)]
        text2 clientId (some id1) =
      (aiFn text2 (([⟨"user", text1⟩,
          ⟨"assistant", aiFn text1 []⟩] : List Msg).drop (2 - cLen)),
       id1,
       [(id1, ⟨clientId, mk_title text1,
          [⟨"user", text1⟩, ⟨"assistant", aiFn text1 []⟩,
           ⟨"user", text2⟩,
           ⟨"assistant", aiFn text2 (([⟨"user", text1⟩,
             ⟨"assistant", aiFn text1 []⟩] : List Msg).drop (2 - cLen))⟩]⟩)],
       [MemEvent.fetchHistory id1,
        MemEvent.persistMsg id1 "user" text2,
        MemEvent.providerCall text2 (([⟨"user", text1⟩,
          ⟨"assistant", aiFn text1 []⟩] : List Msg).drop (2 - cLen)),
        MemEvent.persistMsg id1 "assistant" (aiFn text2 (([⟨"user", text1⟩,
          ⟨"assistant", aiFn text1 []⟩] : List Msg).drop (2 - cLen)))]) := by
  constructor <;>
    simp [process_with_memory, create_conversation, get_conversation_history,
      add_message, storeFind]

end LocalAI
